import Mathlib

/-!
Verification of the weather-data-pipeline core against its code.

The pipeline has three stages, each embedded here from its source file:
* ingestion validation and raw-store gating (`scripts/test_api_call.py`),
* conformance ("silver") transforms  (`scripts/silver_transform.py`),
* curation ("gold") transforms       (`scripts/gold_transform.py`).

Payloads are modelled as JSON-like values (`J`); pandas DataFrames are
modelled as association lists of columns (or rows, for the single-row
current table); pandas NaN/NaT is the `Cell.null` value, and numeric
cells are exact rationals.
-/

/-- JSON-like values, the shape of a parsed Open-Meteo payload. -/
inductive J where
  | null
  | bool (b : Bool)
  | num (q : Rat)
  | str (s : String)
  | arr (xs : List J)
  | obj (kvs : List (String × J))

/-- Python truthiness of a JSON value (`if not x` tests in the sources). -/
def truthy : J → Bool
  | .null => false
  | .bool b => b
  | .num q => decide (q ≠ 0)
  | .str s => !s.isEmpty
  | .arr xs => !xs.isEmpty
  | .obj kvs => !kvs.isEmpty

/-- Python truthiness of `data.get(k)` (absent key gives `None`, falsy). -/
def truthyOpt : Option J → Bool
  | some v => truthy v
  | none => false

/-- `data.get(name, \x7b\x7d)` followed by `.items()`: the key/value pairs of a
dict-valued section, `[]` when the key is absent.  A non-dict section value
(which would raise `AttributeError` in Python at the later `.get`) is not
modelled; no claim exercises one. -/
def sectionOf (data : List (String × J)) (name : String) : List (String × J) :=
  match data.lookup name with
  | some (.obj kvs) => kvs
  | _ => []

/-- The three `ValueError` kinds raised by the bronze validation functions in
`scripts/test_api_call.py` (spec taxonomy: `MissingTopLevelKey`,
`EmptySection`, `EmptyTimeArray`). -/
inductive ValidationError where
  | missingTopLevelKeys (missing : List String)
  | emptySection (name : String)
  | emptyTimeArray (name : String)
deriving DecidableEq

/-- `required` list of `validate_top_level_keys`. -/
def requiredKeys : List String :=
  ["latitude", "longitude", "timezone", "hourly", "daily", "current"]

/-- `validate_top_level_keys` (test_api_call.py:117): collects the required
keys absent from the payload and raises when any is missing. -/
def validate_top_level_keys (data : List (String × J)) :
    Except ValidationError Unit :=
  let missing := requiredKeys.filter fun k => (data.lookup k).isNone
  if missing.isEmpty then .ok () else .error (.missingTopLevelKeys missing)

/-- `validate_sections` (test_api_call.py:127): each of the three sections
must be present and truthy, checked in the order hourly, daily, current. -/
def validate_sections (data : List (String × J)) : Except ValidationError Unit :=
  if !truthyOpt (data.lookup "hourly") then .error (.emptySection "hourly")
  else if !truthyOpt (data.lookup "daily") then .error (.emptySection "daily")
  else if !truthyOpt (data.lookup "current") then .error (.emptySection "current")
  else .ok ()

/-- `data.get(sec, \x7b\x7d).get("time", [])` of `validate_non_empty_arrays`. -/
def timeArray (data : List (String × J)) (sec : String) : J :=
  match (sectionOf data sec).lookup "time" with
  | some v => v
  | none => .arr []

/-- `validate_non_empty_arrays` (test_api_call.py:138): the hourly and daily
`time` arrays must be non-empty (Python truthiness), hourly checked first. -/
def validate_non_empty_arrays (data : List (String × J)) :
    Except ValidationError Unit :=
  if !truthy (timeArray data "hourly") then .error (.emptyTimeArray "hourly")
  else if !truthy (timeArray data "daily") then .error (.emptyTimeArray "daily")
  else .ok ()

/-- The validation phase of `main` (test_api_call.py:168): the three checks in
their fixed order; a raised `ValueError` propagates, skipping later checks. -/
def validate_payload (data : List (String × J)) : Except ValidationError Unit := do
  validate_top_level_keys data
  validate_sections data
  validate_non_empty_arrays data

/-- One loop iteration of `main`: validate, then `save_raw_json` the payload.
The result carries the payload written to the raw store on acceptance. -/
def ingest_location (data : List (String × J)) :
    Except ValidationError (List (String × J)) := do
  validate_payload data
  pure data

/-- Artifacts the raw store receives for one payload: the accepted payload,
or nothing when validation raised. -/
def writtenRaw (data : List (String × J)) : List (List (String × J)) :=
  match ingest_location data with
  | .ok w => [w]
  | .error _ => []

/-- A concrete payload missing the `daily` key but with an empty `hourly`
section, so that both the first and second checks would have a complaint. -/
def payloadNoDaily : List (String × J) :=
  [("latitude", .num 19), ("longitude", .num 72), ("timezone", .str "IST"),
   ("hourly", .obj []), ("current", .obj [("time", .str "2025-01-01T00:00")])]

/-- When `daily` is absent, the top-level-key check fails with the collected
missing-key list. -/
lemma tlk_error_of_daily_missing (data : List (String × J))
    (hd : (data.lookup "daily").isNone) :
    validate_top_level_keys data =
      .error (.missingTopLevelKeys
        (requiredKeys.filter fun k => (data.lookup k).isNone)) := by
  have hmem : "daily" ∈ requiredKeys.filter fun k => (data.lookup k).isNone := by
    simp [List.mem_filter, requiredKeys, hd]
  have hne : (requiredKeys.filter fun k => (data.lookup k).isNone).isEmpty = false := by
    cases h : (requiredKeys.filter fun k => (data.lookup k).isNone).isEmpty
    · rfl
    · rw [List.isEmpty_iff] at h
      simp [h] at hmem
  unfold validate_top_level_keys
  simp [hne]

/-- C1: the validator runs its three checks in the fixed order, the first
failure short-circuits the rest, and a payload is written to the raw store
iff all three checks pass; a payload missing `daily` fails with the
missing-top-level-key error before any later check runs, and a rejected
payload is never written. -/
theorem c1_validator_gate (data : List (String × J)) :
    ((writtenRaw data ≠ []) ↔
      ((validate_top_level_keys data).isOk ∧ (validate_sections data).isOk ∧
        (validate_non_empty_arrays data).isOk)) ∧
    (∀ e, validate_top_level_keys data = .error e →
      ingest_location data = .error e) ∧
    (∀ e, (validate_top_level_keys data).isOk →
      validate_sections data = .error e → ingest_location data = .error e) ∧
    (∀ e, (validate_top_level_keys data).isOk → (validate_sections data).isOk →
      validate_non_empty_arrays data = .error e →
      ingest_location data = .error e) ∧
    ((data.lookup "daily").isNone →
      ∃ ms, ingest_location data = .error (.missingTopLevelKeys ms) ∧
        "daily" ∈ ms) ∧
    (∀ w, ingest_location data = .ok w → w = data) := by
  cases h1 : validate_top_level_keys data with
  | error e1 =>
      refine ⟨?_, ?_, ?_, ?_, ?_, ?_⟩
      · simp [writtenRaw, ingest_location, validate_payload, h1, Except.isOk,
          Except.toBool, Bind.bind, Except.bind]
      · intro e he
        injection he with hh
        subst hh
        simp [ingest_location, validate_payload, h1, Bind.bind, Except.bind]
      · intro e hok
        simp [Except.isOk, Except.toBool] at hok
      · intro e hok
        simp [Except.isOk, Except.toBool] at hok
      · intro hd
        have := tlk_error_of_daily_missing data hd
        rw [h1] at this
        injection this with hh
        subst hh
        refine ⟨requiredKeys.filter fun k => (data.lookup k).isNone, ?_, ?_⟩
        · simp [ingest_location, validate_payload, h1, Bind.bind, Except.bind]
        · simp [List.mem_filter, requiredKeys, hd]
      · intro w hw
        simp [ingest_location, validate_payload, h1, Bind.bind, Except.bind] at hw
  | ok u =>
      cases u
      cases h2 : validate_sections data with
      | error e2 =>
          refine ⟨?_, ?_, ?_, ?_, ?_, ?_⟩
          · simp [writtenRaw, ingest_location, validate_payload, h1, h2,
              Except.isOk, Except.toBool, Bind.bind, Except.bind]
          · intro e he
            simp at he
          · intro e _ he
            injection he with hh
            subst hh
            simp [ingest_location, validate_payload, h1, h2, Bind.bind,
              Except.bind]
          · intro e _ hok
            simp [Except.isOk, Except.toBool] at hok
          · intro hd
            have := tlk_error_of_daily_missing data hd
            rw [h1] at this
            simp at this
          · intro w hw
            simp [ingest_location, validate_payload, h1, h2, Bind.bind,
              Except.bind] at hw
      | ok u2 =>
          cases u2
          refine ⟨?_, ?_, ?_, ?_, ?_, ?_⟩
          · cases h3 : validate_non_empty_arrays data with
            | error e3 =>
                simp [writtenRaw, ingest_location, validate_payload, h1, h2, h3,
                  Except.isOk, Except.toBool, Bind.bind, Except.bind]
            | ok u3 =>
                cases u3
                simp [writtenRaw, ingest_location, validate_payload, h1, h2, h3,
                  Except.isOk, Except.toBool, Bind.bind, Except.bind, pure,
                  Except.pure]
          · intro e he
            simp at he
          · intro e _ he
            simp at he
          · intro e _ _ he
            simp [ingest_location, validate_payload, h1, h2, he, Bind.bind,
              Except.bind]
          · intro hd
            have := tlk_error_of_daily_missing data hd
            rw [h1] at this
            simp at this
          · intro w hw
            cases h3 : validate_non_empty_arrays data with
            | error e3 =>
                simp [ingest_location, validate_payload, h1, h2, h3, Bind.bind,
                  Except.bind] at hw
            | ok u3 =>
                cases u3
                simp [ingest_location, validate_payload, h1, h2, h3, Bind.bind,
                  Except.bind, pure, Except.pure] at hw
                exact hw.symm

/-- C1 witness: on the concrete payload missing `daily`, validation fails with
the missing-top-level-key error naming `daily` (before the empty-hourly
section check could fire), and nothing is written to the raw store. -/
theorem c1_validator_gate_witness :
    (∃ ms, ingest_location payloadNoDaily =
        .error (.missingTopLevelKeys ms) ∧ "daily" ∈ ms) ∧
    writtenRaw payloadNoDaily = [] := by
  refine ⟨(c1_validator_gate payloadNoDaily).2.2.2.2.1 (by decide), ?_⟩
  by_contra h
  have := ((c1_validator_gate payloadNoDaily).1.mp h).1
  revert this
  decide

/-! ## Silver layer: conformance transforms (`scripts/silver_transform.py`) -/

/-- Accumulate decimal digits; `none` on an empty or non-digit sequence. -/
def parseDigits (cs : List Char) : Option Nat :=
  cs.foldl
    (fun acc c =>
      acc.bind fun n => if c.isDigit then some (n * 10 + (c.toNat - 48)) else none)
    (if cs.isEmpty then none else some 0)

/-- Split a character list on a separator (every occurrence, like Python's
`str.split` with an explicit separator). -/
def splitOnChar (sep : Char) (cs : List Char) : List (List Char) :=
  cs.foldr
    (fun x acc =>
      match acc with
      | [] => [[]]
      | a :: rest => if x = sep then [] :: a :: rest else (x :: a) :: rest)
    [[]]

/-- Numeric-string parsing as exercised by `pd.to_numeric`: an optional sign,
then a plain decimal literal (digits with an optional fractional part).
Exponent and special-value syntax is not modelled; no claim exercises it. -/
def parseRat (s : String) : Option Rat :=
  let (neg, cs) :=
    match s.data with
    | '-' :: rest => (true, rest)
    | '+' :: rest => (false, rest)
    | cs => (false, cs)
  match splitOnChar '.' cs with
  | [w] => (parseDigits w).map fun n => if neg then -(n : Rat) else (n : Rat)
  | [w, f] =>
    if w.isEmpty && f.isEmpty then none
    else
      let wn := if w.isEmpty then some 0 else parseDigits w
      let fn := if f.isEmpty then some 0 else parseDigits f
      match wn, fn with
      | some a, some b =>
        let q : Rat := (a : Rat) + (b : Rat) / ((10 : Rat) ^ f.length)
        some (if neg then -q else q)
      | _, _ => none
  | _ => none

/-- All-digit non-empty character sequence. -/
def isDigitSeq (cs : List Char) : Bool := !cs.isEmpty && cs.all (·.isDigit)

/-- Timestamp-string parsing as exercised by `pd.to_datetime` on the ISO
`YYYY-MM-DD[THH:MM...]` strings Open-Meteo emits; the result encodes the
date as `y*10000 + m*100 + d` (intra-day resolution is not needed by any
claim). Unparseable strings give `none`. -/
def parseDate (s : String) : Option Nat :=
  let d := s.data.take 10
  let rest := s.data.drop 10
  if rest.isEmpty || rest.head? = some 'T' || rest.head? = some ' ' then
    match splitOnChar '-' d with
    | [y, m, dd] =>
      if y.length = 4 && m.length = 2 && dd.length = 2 &&
          isDigitSeq y && isDigitSeq m && isDigitSeq dd then
        (parseDigits y).bind fun yn =>
        (parseDigits m).bind fun mn =>
        (parseDigits dd).bind fun dn =>
        if 1 ≤ mn && mn ≤ 12 && 1 ≤ dn && dn ≤ 31 then
          some (yn * 10000 + mn * 100 + dn)
        else none
      else none
    | _ => none
  else none

/-- A cell of a conformed table: pandas NaN/NaT is `null`, numerics are `num`,
parsed timestamps are `time`, strings are `str`, and any other value kept
unchanged by best-effort coercion is `other`. -/
inductive Cell where
  | null
  | num (q : Rat)
  | time (t : Nat)
  | str (s : String)
  | other (v : J)

/-- Result of `pd.to_numeric` on one value: outer `none` is a raised
conversion error, `some none` is a NaN result, `some (some q)` a number. -/
def toNumRes : J → Option (Option Rat)
  | .null => some none
  | .num q => some (some q)
  | .bool b => some (some (if b then 1 else 0))
  | .str s => (parseRat s).map some
  | .arr _ => none
  | .obj _ => none

/-- The identity embedding of an unconverted pandas value into `Cell` (a
value the best-effort coercion left unchanged). -/
def Cell.ofJ : J → Cell
  | .null => .null
  | .num q => .num q
  | .str s => .str s
  | v => .other v

/-- Current-section policy (silver_transform.py:90): `pd.to_numeric` inside
`try/except` — on success the numeric value, on failure the original value
unchanged. -/
def bestEffortCell (v : J) : Cell :=
  match toNumRes v with
  | some (some q) => .num q
  | some none => .null
  | none => Cell.ofJ v

/-- Hourly/daily policy (silver_transform.py:124): `pd.to_numeric` with
`errors="coerce"` — conversion failures become null. -/
def numNullCell (v : J) : Cell :=
  match toNumRes v with
  | some (some q) => .num q
  | _ => .null

/-- `pd.to_datetime(·, errors="coerce")` on one value: parse failures become
null. Non-string time values (which pandas would read as epochs) are not
distinguished from failures; no claim exercises them. -/
def timeCell : J → Cell
  | .str s =>
    match parseDate s with
    | some t => .time t
    | none => .null
  | _ => .null

/-- Per-column coercion of the current table: the `time` column is
timestamp-parsed, every other column numeric-coerced best-effort. -/
def currentCell (k : String) (v : J) : Cell :=
  if k = "time" then timeCell v else bestEffortCell v

/-- `df[k] = c`: replace the column in place when present, else append it. -/
def setCol {α : Type} (t : List (String × α)) (k : String) (c : α) :
    List (String × α) :=
  if t.any (fun e => e.1 = k) then
    t.map fun e => if e.1 = k then (k, c) else e
  else t ++ [(k, c)]

/-- `transform_current` (silver_transform.py:78): the current section as a
single-row table; empty or absent section gives the empty table; otherwise
time parse and best-effort numeric coercion, then the `location` and
`load_timestamp` metadata columns. -/
def transform_current (data : List (String × J)) (location : String)
    (loadTs : Nat) : List (List (String × Cell)) :=
  let current := sectionOf data "current"
  if current.isEmpty then []
  else
    let row := current.map fun e => (e.1, currentCell e.1 e.2)
    [setCol (setCol row "location" (.str location)) "load_timestamp"
      (.time loadTs)]

/-- `pd.Series` of one section value: a list is its elements, a dict its
values, and any scalar a one-element series. -/
def seriesOf : J → List J
  | .arr xs => xs
  | .obj kvs => kvs.map (·.2)
  | v => [v]

/-- The row count of the DataFrame built from per-key series: the longest
series length (shorter series are null-padded by pandas). -/
def tableLen (cols : List (String × List J)) : Nat :=
  cols.foldr (fun c acc => max c.2.length acc) 0

/-- Null-padding of one column to the table's row count. -/
def padCol (n : Nat) (l : List J) : List J :=
  l ++ List.replicate (n - l.length) .null

/-- Shared tail of the hourly/daily transforms: build the null-padded table,
timestamp-parse the `time` column, numeric-coerce (null on failure) every
other column, then set the `location` and `load_timestamp` columns. -/
def seriesCoerce (cols : List (String × List J)) (location : String)
    (loadTs : Nat) : List (String × List Cell) :=
  let n := tableLen cols
  let body := cols.map fun c =>
    (c.1,
      if c.1 = "time" then (padCol n c.2).map timeCell
      else (padCol n c.2).map numNullCell)
  setCol (setCol body "location" (List.replicate n (.str location)))
    "load_timestamp" (List.replicate n (.time loadTs))

/-- `transform_hourly` (silver_transform.py:108): empty or absent section
gives the empty table, else the coerced per-key series table. -/
def transform_hourly (data : List (String × J)) (location : String)
    (loadTs : Nat) : List (String × List Cell) :=
  let hourly := sectionOf data "hourly"
  if hourly.isEmpty then []
  else seriesCoerce (hourly.map fun e => (e.1, seriesOf e.2)) location loadTs

/-- The `df.rename` map of `transform_daily` (silver_transform.py:148). -/
def renameKey (k : String) : String :=
  if k = "temperature_2m_max" then "temp_max"
  else if k = "temperature_2m_min" then "temp_min"
  else if k = "wind_speed_10m_max" then "wind_speed_max"
  else if k = "precipitation_sum" then "precip_total"
  else k

/-- `transform_daily` (silver_transform.py:137): like hourly, with the fixed
column rename applied to the built table before the type coercions. -/
def transform_daily (data : List (String × J)) (location : String)
    (loadTs : Nat) : List (String × List Cell) :=
  let daily := sectionOf data "daily"
  if daily.isEmpty then []
  else
    seriesCoerce
      ((daily.map fun e => (e.1, seriesOf e.2)).map fun c => (renameKey c.1, c.2))
      location loadTs

/-- `df.empty` for a column-shaped table: no columns or no rows. -/
def colTableEmpty (t : List (String × List Cell)) : Bool :=
  t.isEmpty || t.all fun c => c.2.isEmpty

/-- `df.empty` for the row-shaped current table. -/
def rowTableEmpty (t : List (List (String × Cell))) : Bool :=
  t.isEmpty || t.all (·.isEmpty)

/-- The silver artifacts written for one bronze file: `none` when the writer
skipped an empty table. -/
structure SilverOutputs where
  currentOut : Option (List (List (String × Cell)))
  hourlyOut : Option (List (String × List Cell))
  dailyOut : Option (List (String × List Cell))

/-- `process_file` (silver_transform.py:189): run the three transforms on the
payload and persist each non-empty result (each transform takes its own
`datetime.now()` capture instant). -/
def process_file (data : List (String × J)) (location : String)
    (tsC tsH tsD : Nat) : SilverOutputs :=
  let c := transform_current data location tsC
  let h := transform_hourly data location tsH
  let d := transform_daily data location tsD
  { currentOut := if rowTableEmpty c then none else some c
    hourlyOut := if colTableEmpty h then none else some h
    dailyOut := if colTableEmpty d then none else some d }

/-! ## Column-assignment lemmas -/

/-- An entry with a different key survives `setCol`. -/
lemma setCol_mem_of_ne {α : Type} {t : List (String × α)} {k k' : String}
    {c : α} (v' : α) (hm : (k, c) ∈ t) (hk : k ≠ k') :
    (k, c) ∈ setCol t k' v' := by
  unfold setCol
  by_cases h : (t.any fun e => decide (e.1 = k')) = true
  · simp only [h, if_true]
    exact List.mem_map.mpr ⟨(k, c), hm, by simp [hk]⟩
  · simp only [h, if_false]
    exact List.mem_append_left _ hm

/-- An entry of `setCol t k' v'` with a key other than `k'` came from `t`. -/
lemma mem_setCol_ne {α : Type} {t : List (String × α)} {k k' : String}
    {c : α} (v' : α) (hm : (k, c) ∈ setCol t k' v') (hk : k ≠ k') :
    (k, c) ∈ t := by
  unfold setCol at hm
  by_cases h : (t.any fun e => decide (e.1 = k')) = true
  · simp only [h, if_true] at hm
    obtain ⟨e, he, heq⟩ := List.mem_map.mp hm
    by_cases h1 : e.1 = k'
    · simp only [h1, if_true] at heq
      cases heq
      exact absurd rfl hk
    · simp only [h1, if_false] at heq
      exact heq ▸ he
  · simp only [h, if_false] at hm
    rcases List.mem_append.mp hm with h' | h'
    · exact h'
    · simp at h'
      exact absurd h'.1 hk

/-- `setCol` puts its own entry in the table. -/
lemma setCol_mem_self {α : Type} (t : List (String × α)) (k : String) (v : α) :
    (k, v) ∈ setCol t k v := by
  unfold setCol
  by_cases h : (t.any fun e => decide (e.1 = k)) = true
  · simp only [h, if_true]
    obtain ⟨e, he, hek⟩ := List.any_eq_true.mp h
    exact List.mem_map.mpr ⟨e, he, by simp [of_decide_eq_true hek]⟩
  · simp only [h, if_false]
    exact List.mem_append_right _ (List.mem_singleton.mpr rfl)

/-- The null-on-failure coercion only ever produces null or a number. -/
lemma numNullCell_shape (v : J) :
    numNullCell v = .null ∨ ∃ q, numNullCell v = .num q := by
  unfold numNullCell
  cases h : toNumRes v with
  | none => exact .inl rfl
  | some o =>
    cases o with
    | none => exact .inl rfl
    | some q => exact .inr ⟨q, rfl⟩

/-- The timestamp coercion only ever produces null or a timestamp. -/
lemma timeCell_shape (v : J) :
    timeCell v = .null ∨ ∃ t, timeCell v = .time t := by
  cases v with
  | str s =>
    cases h : parseDate s with
    | none => exact .inl (by simp [timeCell, h])
    | some t => exact .inr ⟨t, by simp [timeCell, h]⟩
  | null => exact .inl rfl
  | bool b => exact .inl rfl
  | num q => exact .inl rfl
  | arr xs => exact .inl rfl
  | obj kvs => exact .inl rfl

/-- A non-metadata column of `seriesCoerce` is a source column run through
the `time`-or-numeric coercion. -/
lemma seriesCoerce_mem {cols : List (String × List J)} {loc : String}
    {ts : Nat} {k : String} {cells : List Cell}
    (hm : (k, cells) ∈ seriesCoerce cols loc ts)
    (h1 : k ≠ "location") (h2 : k ≠ "load_timestamp") :
    ∃ l, (k, l) ∈ cols ∧
      cells = (if k = "time" then (padCol (tableLen cols) l).map timeCell
        else (padCol (tableLen cols) l).map numNullCell) := by
  unfold seriesCoerce at hm
  have hm1 := mem_setCol_ne _ hm h2
  have hm2 := mem_setCol_ne _ hm1 h1
  obtain ⟨c, hc, heq⟩ := List.mem_map.mp hm2
  have hk : c.1 = k := congrArg Prod.fst heq
  refine ⟨c.2, ?_, ?_⟩
  · rw [← hk]
    exact hc
  · have := congrArg Prod.snd heq
    simp only at this
    rw [← this, hk]

/-- Every coerced value of the current section appears in the output row. -/
lemma transform_current_mem {data : List (String × J)} {location : String}
    {loadTs : Nat} {e : String × J} (he : e ∈ sectionOf data "current")
    (h1 : e.1 ≠ "location") (h2 : e.1 ≠ "load_timestamp") :
    ∀ row ∈ transform_current data location loadTs,
      (e.1, currentCell e.1 e.2) ∈ row := by
  intro row hrow
  unfold transform_current at hrow
  have hne : (sectionOf data "current").isEmpty = false := by
    cases h : (sectionOf data "current").isEmpty
    · rfl
    · rw [List.isEmpty_iff] at h
      simp [h] at he
  simp only [hne, Bool.false_eq_true, if_false, List.mem_singleton] at hrow
  subst hrow
  exact setCol_mem_of_ne _
    (setCol_mem_of_ne _ (List.mem_map.mpr ⟨e, he, rfl⟩) h1) h2

/-- C2: the conformance type coercions follow the two-tier policy, with total
(never-raising) coercion functions: in the current table each non-time
column is numeric-coerced best-effort and a failed coercion keeps the
original value unchanged; in the hourly and daily tables every non-time
column's cells are numeric-or-null (failures coerced to null) and the time
column's cells are timestamp-or-null. -/
theorem c2_coercion_policy (data : List (String × J)) (location : String)
    (loadTs : Nat) :
    (∀ k v, k ≠ "time" → currentCell k v = bestEffortCell v) ∧
    (∀ v, toNumRes v = none → bestEffortCell v = Cell.ofJ v) ∧
    (∀ v q, toNumRes v = some (some q) → bestEffortCell v = .num q) ∧
    (∀ e ∈ sectionOf data "current", e.1 ≠ "location" →
      e.1 ≠ "load_timestamp" →
      ∀ row ∈ transform_current data location loadTs,
        (e.1, currentCell e.1 e.2) ∈ row) ∧
    (∀ k cells, (k, cells) ∈ transform_hourly data location loadTs →
      k ≠ "time" → k ≠ "location" → k ≠ "load_timestamp" →
      ∀ c ∈ cells, c = .null ∨ ∃ q, c = .num q) ∧
    (∀ cells, ("time", cells) ∈ transform_hourly data location loadTs →
      ∀ c ∈ cells, c = .null ∨ ∃ t, c = .time t) ∧
    (∀ k cells, (k, cells) ∈ transform_daily data location loadTs →
      k ≠ "time" → k ≠ "location" → k ≠ "load_timestamp" →
      ∀ c ∈ cells, c = .null ∨ ∃ q, c = .num q) ∧
    (∀ cells, ("time", cells) ∈ transform_daily data location loadTs →
      ∀ c ∈ cells, c = .null ∨ ∃ t, c = .time t) := by
  refine ⟨?_, ?_, ?_, ?_, ?_, ?_, ?_, ?_⟩
  · intro k v hk
    simp [currentCell, hk]
  · intro v hv
    simp [bestEffortCell, hv]
  · intro v q hv
    simp [bestEffortCell, hv]
  · intro e he h1 h2
    exact transform_current_mem he h1 h2
  · intro k cells hm hk h1 h2
    unfold transform_hourly at hm
    by_cases hE : (sectionOf data "hourly").isEmpty
    · simp [hE] at hm
    · simp only [hE, Bool.false_eq_true, if_false] at hm
      obtain ⟨l, _, hcells⟩ := seriesCoerce_mem hm h1 h2
      rw [if_neg hk] at hcells
      subst hcells
      intro c hc
      obtain ⟨v, _, hv⟩ := List.mem_map.mp hc
      rw [← hv]
      exact numNullCell_shape v
  · intro cells hm
    unfold transform_hourly at hm
    by_cases hE : (sectionOf data "hourly").isEmpty
    · simp [hE] at hm
    · simp only [hE, Bool.false_eq_true, if_false] at hm
      obtain ⟨l, _, hcells⟩ := seriesCoerce_mem hm (by decide) (by decide)
      rw [if_pos rfl] at hcells
      subst hcells
      intro c hc
      obtain ⟨v, _, hv⟩ := List.mem_map.mp hc
      rw [← hv]
      exact timeCell_shape v
  · intro k cells hm hk h1 h2
    unfold transform_daily at hm
    by_cases hE : (sectionOf data "daily").isEmpty
    · simp [hE] at hm
    · simp only [hE, Bool.false_eq_true, if_false] at hm
      obtain ⟨l, _, hcells⟩ := seriesCoerce_mem hm h1 h2
      rw [if_neg hk] at hcells
      subst hcells
      intro c hc
      obtain ⟨v, _, hv⟩ := List.mem_map.mp hc
      rw [← hv]
      exact numNullCell_shape v
  · intro cells hm
    unfold transform_daily at hm
    by_cases hE : (sectionOf data "daily").isEmpty
    · simp [hE] at hm
    · simp only [hE, Bool.false_eq_true, if_false] at hm
      obtain ⟨l, _, hcells⟩ := seriesCoerce_mem hm (by decide) (by decide)
      rw [if_pos rfl] at hcells
      subst hcells
      intro c hc
      obtain ⟨v, _, hv⟩ := List.mem_map.mp hc
      rw [← hv]
      exact timeCell_shape v

/-- A payload whose current section holds the non-numeric string `abc` and
whose hourly section holds the same string inside a metric array. -/
def payloadCoercion : List (String × J) :=
  [("current", .obj [("time", .str "2025-01-02T03:00"), ("interval", .str "abc"),
     ("temperature_2m", .str "7")]),
   ("hourly", .obj [("time", .arr [.str "2025-01-01T00:00"]),
     ("relative_humidity_2m", .arr [.str "abc"])]),
   ("daily", .obj [("time", .arr [.str "2025-01-01"]),
     ("temperature_2m_max", .arr [.num 30])])]

/-- C2 witness: on the concrete payload, the current table keeps the
unconvertible string `abc` unchanged while the hourly table nulls the same
string, and the hourly time cell is a parsed timestamp. -/
theorem c2_coercion_policy_witness :
    bestEffortCell (.str "abc") = Cell.ofJ (.str "abc") ∧
    (("interval", Cell.str "abc") ∈
      [("time", Cell.time 20250102), ("interval", Cell.str "abc"),
       ("temperature_2m", Cell.num 7), ("location", Cell.str "x"),
       ("load_timestamp", Cell.time 0)]) ∧
    (∀ c ∈ [Cell.null], c = Cell.null ∨ ∃ q, c = Cell.num q) ∧
    (∀ c ∈ [Cell.time 20250101], c = Cell.null ∨ ∃ t, c = Cell.time t) := by
  have h := c2_coercion_policy payloadCoercion "x" 0
  refine ⟨h.2.1 (.str "abc") rfl, ?_, ?_, ?_⟩
  · have hmem := h.2.2.2.1 ("interval", .str "abc")
      (by exact List.Mem.tail _ (List.Mem.head _)) (by decide) (by decide)
      [("time", Cell.time 20250102), ("interval", Cell.str "abc"),
       ("temperature_2m", Cell.num 7), ("location", Cell.str "x"),
       ("load_timestamp", Cell.time 0)]
      (by exact List.Mem.head _)
    exact hmem
  · exact h.2.2.2.2.1 "relative_humidity_2m" [Cell.null]
      (by exact List.Mem.tail _ (List.Mem.head _)) (by decide) (by decide)
      (by decide)
  · exact h.2.2.2.2.2.1 [Cell.time 20250101] (by exact List.Mem.head _)

/-- The rename map never produces one of the four raw daily column names. -/
lemma renameKey_not_raw (k : String) :
    renameKey k ∉ ["temperature_2m_max", "temperature_2m_min",
      "wind_speed_10m_max", "precipitation_sum"] := by
  unfold renameKey
  split_ifs with h1 h2 h3 h4
  · decide
  · decide
  · decide
  · decide
  · simp [h1, h2, h3, h4]

/-- C3: the daily transform applies exactly the four-entry rename map, the
rename happens before type coercion (the coercion pipeline receives the
renamed columns), renamed source columns surface under their new names, and
no output column of the daily table carries a raw source name. -/
theorem c3_daily_rename (data : List (String × J)) (location : String)
    (loadTs : Nat) :
    (renameKey "temperature_2m_max" = "temp_max" ∧
     renameKey "temperature_2m_min" = "temp_min" ∧
     renameKey "wind_speed_10m_max" = "wind_speed_max" ∧
     renameKey "precipitation_sum" = "precip_total" ∧
     ∀ k, k ∉ ["temperature_2m_max", "temperature_2m_min",
       "wind_speed_10m_max", "precipitation_sum"] → renameKey k = k) ∧
    (transform_daily data location loadTs =
      if (sectionOf data "daily").isEmpty then []
      else
        seriesCoerce
          ((sectionOf data "daily").map fun e => (renameKey e.1, seriesOf e.2))
          location loadTs) ∧
    (∀ e ∈ sectionOf data "daily", renameKey e.1 ≠ "location" →
      renameKey e.1 ≠ "load_timestamp" →
      ∃ cells, (renameKey e.1, cells) ∈ transform_daily data location loadTs) ∧
    (∀ k cells, (k, cells) ∈ transform_daily data location loadTs →
      k ∉ ["temperature_2m_max", "temperature_2m_min",
        "wind_speed_10m_max", "precipitation_sum"]) := by
  refine ⟨⟨rfl, rfl, rfl, rfl, ?_⟩, ?_, ?_, ?_⟩
  · intro k hk
    simp only [List.mem_cons, List.not_mem_nil, or_false, not_or] at hk
    simp [renameKey, hk.1, hk.2.1, hk.2.2.1, hk.2.2.2]
  · unfold transform_daily
    simp [List.map_map, Function.comp_def]
  · intro e he h1 h2
    have hne : (sectionOf data "daily").isEmpty = false := by
      cases h : (sectionOf data "daily").isEmpty
      · rfl
      · rw [List.isEmpty_iff] at h
        simp [h] at he
    refine ⟨(if renameKey e.1 = "time" then
        (padCol (tableLen ((sectionOf data "daily").map fun e =>
          (renameKey e.1, seriesOf e.2))) (seriesOf e.2)).map timeCell
      else
        (padCol (tableLen ((sectionOf data "daily").map fun e =>
          (renameKey e.1, seriesOf e.2))) (seriesOf e.2)).map numNullCell), ?_⟩
    unfold transform_daily
    simp only [hne, Bool.false_eq_true, if_false]
    have hcols :
        ((sectionOf data "daily").map fun e => (e.1, seriesOf e.2)).map
          (fun c => (renameKey c.1, c.2)) =
        (sectionOf data "daily").map fun e => (renameKey e.1, seriesOf e.2) := by
      simp [List.map_map, Function.comp_def]
    rw [hcols]
    unfold seriesCoerce
    refine setCol_mem_of_ne _ (setCol_mem_of_ne _ ?_ h1) h2
    have : (renameKey e.1, seriesOf e.2) ∈
        (sectionOf data "daily").map fun e => (renameKey e.1, seriesOf e.2) :=
      List.mem_map.mpr ⟨e, he, rfl⟩
    exact List.mem_map.mpr ⟨(renameKey e.1, seriesOf e.2), this, rfl⟩
  · intro k cells hm
    unfold transform_daily at hm
    by_cases hE : (sectionOf data "daily").isEmpty
    · simp [hE] at hm
    · simp only [hE, Bool.false_eq_true, if_false] at hm
      intro hk
      have h1 : k ≠ "location" := by
        simp only [List.mem_cons, List.not_mem_nil, or_false] at hk
        rcases hk with h | h | h | h <;> subst h <;> decide
      have h2 : k ≠ "load_timestamp" := by
        simp only [List.mem_cons, List.not_mem_nil, or_false] at hk
        rcases hk with h | h | h | h <;> subst h <;> decide
      obtain ⟨l, hl, _⟩ := seriesCoerce_mem hm h1 h2
      obtain ⟨c, _, heq⟩ := List.mem_map.mp hl
      have : renameKey c.1 = k := congrArg Prod.fst heq
      exact renameKey_not_raw c.1 (this ▸ hk)

/-- C3 witness: on the concrete payload, the daily output carries the renamed
`temp_max` column, and `temp_max` is not one of the raw source names. -/
theorem c3_daily_rename_witness :
    (∃ cells, ("temp_max", cells) ∈ transform_daily payloadCoercion "x" 0) ∧
    ("temp_max" : String) ∉ ["temperature_2m_max", "temperature_2m_min",
      "wind_speed_10m_max", "precipitation_sum"] := by
  have h := c3_daily_rename payloadCoercion "x" 0
  constructor
  · exact h.2.2.1 ("temperature_2m_max", .arr [.num 30])
      (List.Mem.tail _ (List.Mem.head _)) (by decide) (by decide)
  · exact h.2.2.2 "temp_max" [Cell.num 30]
      (List.Mem.tail _ (List.Mem.head _))

/-- A payload whose hourly section is the empty dict, with non-empty current
and daily sections (the spec's empty-section scenario). -/
def payloadEmptyHourly : List (String × J) :=
  [("current", .obj [("time", .str "2025-01-02T03:00"),
     ("temperature_2m", .num 21)]),
   ("hourly", .obj []),
   ("daily", .obj [("time", .arr [.str "2025-01-01"]),
     ("temperature_2m_max", .arr [.num 30])])]

/-- C8: every conformance sub-operation appends `location` and the capture
`load_timestamp` to its (non-empty) output; an absent or empty section gives
the empty table; each sub-operation reads only its own section, so the
others succeed independently; and the writer persists an artifact iff the
table is non-empty. -/
theorem c8_metadata_and_writer_skip (data : List (String × J))
    (location : String) (tsC tsH tsD : Nat) :
    (∀ row ∈ transform_current data location tsC,
      ("location", Cell.str location) ∈ row ∧
      ("load_timestamp", Cell.time tsC) ∈ row) ∧
    (transform_hourly data location tsH ≠ [] →
      ∃ n, ("location", List.replicate n (Cell.str location)) ∈
          transform_hourly data location tsH ∧
        ("load_timestamp", List.replicate n (Cell.time tsH)) ∈
          transform_hourly data location tsH) ∧
    (transform_daily data location tsD ≠ [] →
      ∃ n, ("location", List.replicate n (Cell.str location)) ∈
          transform_daily data location tsD ∧
        ("load_timestamp", List.replicate n (Cell.time tsD)) ∈
          transform_daily data location tsD) ∧
    ((sectionOf data "current").isEmpty →
      transform_current data location tsC = []) ∧
    ((sectionOf data "hourly").isEmpty →
      transform_hourly data location tsH = []) ∧
    ((sectionOf data "daily").isEmpty →
      transform_daily data location tsD = []) ∧
    (∀ data2, sectionOf data2 "current" = sectionOf data "current" →
      transform_current data2 location tsC = transform_current data location tsC) ∧
    (∀ data2, sectionOf data2 "hourly" = sectionOf data "hourly" →
      transform_hourly data2 location tsH = transform_hourly data location tsH) ∧
    (∀ data2, sectionOf data2 "daily" = sectionOf data "daily" →
      transform_daily data2 location tsD = transform_daily data location tsD) ∧
    ((process_file data location tsC tsH tsD).currentOut =
      if rowTableEmpty (transform_current data location tsC) then none
      else some (transform_current data location tsC)) ∧
    ((process_file data location tsC tsH tsD).hourlyOut =
      if colTableEmpty (transform_hourly data location tsH) then none
      else some (transform_hourly data location tsH)) ∧
    ((process_file data location tsC tsH tsD).dailyOut =
      if colTableEmpty (transform_daily data location tsD) then none
      else some (transform_daily data location tsD)) := by
  refine ⟨?_, ?_, ?_, ?_, ?_, ?_, ?_, ?_, ?_, rfl, rfl, rfl⟩
  · intro row hrow
    unfold transform_current at hrow
    by_cases hE : (sectionOf data "current").isEmpty
    · simp [hE] at hrow
    · simp only [hE, Bool.false_eq_true, if_false, List.mem_singleton] at hrow
      subst hrow
      exact ⟨setCol_mem_of_ne _ (setCol_mem_self _ _ _) (by decide),
        setCol_mem_self _ _ _⟩
  · intro hne
    unfold transform_hourly at hne ⊢
    by_cases hE : (sectionOf data "hourly").isEmpty
    · simp [hE] at hne
    · simp only [hE, Bool.false_eq_true, if_false] at hne ⊢
      refine ⟨tableLen ((sectionOf data "hourly").map fun e =>
        (e.1, seriesOf e.2)), ?_, ?_⟩
      · exact setCol_mem_of_ne _ (setCol_mem_self _ _ _) (by decide)
      · exact setCol_mem_self _ _ _
  · intro hne
    unfold transform_daily at hne ⊢
    by_cases hE : (sectionOf data "daily").isEmpty
    · simp [hE] at hne
    · simp only [hE, Bool.false_eq_true, if_false] at hne ⊢
      refine ⟨tableLen (((sectionOf data "daily").map fun e =>
        (e.1, seriesOf e.2)).map fun c => (renameKey c.1, c.2)), ?_, ?_⟩
      · exact setCol_mem_of_ne _ (setCol_mem_self _ _ _) (by decide)
      · exact setCol_mem_self _ _ _
  · intro hE
    unfold transform_current
    simp [hE]
  · intro hE
    unfold transform_hourly
    simp [hE]
  · intro hE
    unfold transform_daily
    simp [hE]
  · intro data2 hsec
    unfold transform_current
    rw [hsec]
  · intro data2 hsec
    unfold transform_hourly
    rw [hsec]
  · intro data2 hsec
    unfold transform_daily
    rw [hsec]

/-- C8 witness: on the concrete payload with `hourly = \x7b\x7d`, the hourly
transform returns the empty table and the writer skips it, while the
current and daily artifacts are both persisted, and the persisted daily
table carries the `location` and `load_timestamp` columns. -/
theorem c8_metadata_and_writer_skip_witness :
    transform_hourly payloadEmptyHourly "x" 1 = [] ∧
    (process_file payloadEmptyHourly "x" 0 1 2).hourlyOut = none ∧
    (process_file payloadEmptyHourly "x" 0 1 2).currentOut =
      some (transform_current payloadEmptyHourly "x" 0) ∧
    (process_file payloadEmptyHourly "x" 0 1 2).dailyOut =
      some (transform_daily payloadEmptyHourly "x" 2) ∧
    (∃ n, ("location", List.replicate n (Cell.str "x")) ∈
        transform_daily payloadEmptyHourly "x" 2 ∧
      ("load_timestamp", List.replicate n (Cell.time 2)) ∈
        transform_daily payloadEmptyHourly "x" 2) := by
  have h := c8_metadata_and_writer_skip payloadEmptyHourly "x" 0 1 2
  have hH : transform_hourly payloadEmptyHourly "x" 1 = [] :=
    h.2.2.2.2.1 (by rfl)
  refine ⟨hH, ?_, ?_, ?_, ?_⟩
  · rw [h.2.2.2.2.2.2.2.2.2.2.1, hH]
    rfl
  · rw [h.2.2.2.2.2.2.2.2.2.1]
    rfl
  · rw [h.2.2.2.2.2.2.2.2.2.2.2]
    rfl
  · refine h.2.2.1 ?_
    intro hc
    have hlen := congrArg List.length hc
    revert hlen
    decide

/-! ## Gold layer: curation transforms (`scripts/gold_transform.py`) -/

/-- One row of a conformed daily table as the gold stage reads it: the
business columns after the silver rename (null-coerced metrics are
`Option Rat`, a null time is `none`), plus any other columns carried
along unchanged. -/
structure DailyRow where
  time : Option Nat
  location : String
  temp_max : Option Rat
  temp_min : Option Rat
  wind_speed_max : Option Rat
  precip_total : Option Rat
  extra : List (String × Cell)

/-- pandas `mean` with NaN skipped: `none` on an all-null column. -/
def meanOpt (l : List Rat) : Option Rat :=
  if l.isEmpty then none else some (l.sum / (l.length : Rat))

/-- pandas `max` with NaN skipped: `none` on an all-null column. -/
def maxOpt (l : List Rat) : Option Rat :=
  l.foldl
    (fun acc x =>
      match acc with
      | none => some x
      | some m => some (max m x))
    none

/-- pandas `min` with NaN skipped: `none` on an all-null column. -/
def minOpt (l : List Rat) : Option Rat :=
  l.foldl
    (fun acc x =>
      match acc with
      | none => some x
      | some m => some (min m x))
    none

/-- pandas `Series > c` on a nullable value: NaN compares false. -/
def gtNull (v : Option Rat) (c : Rat) : Bool :=
  match v with
  | some x => decide (c < x)
  | none => false

/-- The `weather_label` lambda (gold_transform.py:72) applied to a nullable
`avg_temp` (NaN comparisons are false, so a null mean gives "moderate"). -/
def weatherLabel (avg : Option Rat) : String :=
  if gtNull avg 35 then "hot"
  else if (match avg with | some x => decide (x < 10) | none => false) then "cold"
  else "moderate"

/-- One row of the `daily_summary` gold dataset. -/
structure SummaryRow where
  time : Nat
  location : String
  avg_temp : Option Rat
  max_temp : Option Rat
  min_temp : Option Rat
  total_precip : Rat
  max_wind_speed : Option Rat
  weather_label : String
  load_timestamp : Nat
deriving DecidableEq

/-- The distinct `groupby(["time", "location"])` keys of a daily table.
pandas drops rows whose key holds NaN; the keys here are listed in first
occurrence order rather than pandas' sorted order — no claim depends on
row order. -/
def groupKeys (df : List DailyRow) : List (Nat × String) :=
  (df.filterMap fun r => r.time.map fun t => (t, r.location)).dedup

/-- The rows of one `(time, location)` group. -/
def groupRows (df : List DailyRow) (t : Nat) (loc : String) : List DailyRow :=
  df.filter fun r => r.time == some t && r.location == loc

/-- `build_daily_summary` (gold_transform.py:60): group by (`time`,
`location`) and aggregate — mean/max of `temp_max`, min of `temp_min`,
sum of `precip_total` (pandas sum is 0 on an all-null group), max of
`wind_speed_max` — then derive `weather_label` and stamp the load time. -/
def build_daily_summary (df : List DailyRow) (loadTs : Nat) : List SummaryRow :=
  (groupKeys df).map fun k =>
    let g := groupRows df k.1 k.2
    let avg := meanOpt (g.filterMap (·.temp_max))
    { time := k.1
      location := k.2
      avg_temp := avg
      max_temp := maxOpt (g.filterMap (·.temp_max))
      min_temp := minOpt (g.filterMap (·.temp_min))
      total_precip := (g.filterMap (·.precip_total)).sum
      max_wind_speed := maxOpt (g.filterMap (·.wind_speed_max))
      weather_label := weatherLabel avg
      load_timestamp := loadTs }

/-- One row of the `alerts` gold dataset. -/
structure AlertRow where
  date : Option Nat
  location : String
  heat_alert_flag : Nat
  storm_flag : Nat
  rain_alert_flag : Nat
  risk_level : String
  load_timestamp : Nat
deriving DecidableEq

/-- The per-row content of `build_alerts` (gold_transform.py:81): the three
`.astype(int)` threshold flags and the row-wise `risk_level` lambda. -/
def alertRowOf (loadTs : Nat) (r : DailyRow) : AlertRow :=
  let storm := if gtNull r.wind_speed_max 50 then 1 else 0
  let rain := if gtNull r.precip_total 20 then 1 else 0
  { date := r.time
    location := r.location
    heat_alert_flag := if gtNull r.temp_max 35 then 1 else 0
    storm_flag := storm
    rain_alert_flag := rain
    risk_level :=
      if storm = 1 then "high" else if rain = 1 then "moderate" else "low"
    load_timestamp := loadTs }

/-- `build_alerts`: row-aligned with the input daily table. -/
def build_alerts (df : List DailyRow) (loadTs : Nat) : List AlertRow :=
  df.map (alertRowOf loadTs)

/-- One row of the `features` gold dataset: a copy of the input row (`base`)
plus the three engineered columns and the load stamp. -/
structure FeatureRow where
  base : DailyRow
  temperature_range : Option Rat
  humidity_index : Option Rat
  wind_chill : Option Rat
  load_timestamp : Nat

/-- Nullable binary arithmetic: any NaN operand yields NaN. -/
def map2Opt (f : Rat → Rat → Rat) (a b : Option Rat) : Option Rat :=
  a.bind fun x => b.map fun y => f x y

/-- The per-row content of `build_features` (gold_transform.py:106). -/
def featureRowOf (loadTs : Nat) (r : DailyRow) : FeatureRow :=
  { base := r
    temperature_range := map2Opt (fun a b => a - b) r.temp_max r.temp_min
    humidity_index :=
      map2Opt (fun a b => a * (1/10) + b * (1/2)) r.temp_max r.precip_total
    wind_chill :=
      map2Opt (fun a b => a - b * (1/10)) r.temp_min r.wind_speed_max
    load_timestamp := loadTs }

/-- `build_features`: a row-aligned copy of the input with the engineered
columns appended. -/
def build_features (df : List DailyRow) (loadTs : Nat) : List FeatureRow :=
  df.map (featureRowOf loadTs)

/-- The per-file body of `process_gold` (gold_transform.py:121):
`df_daily["location"].iloc[0]` raises `IndexError` on a zero-row table,
else the three gold datasets are built and saved (the result pairs each
saved triple with the location used in its filenames). -/
def goldFile (loadTs : Nat) (df : List DailyRow) :
    Except String
      (String × List SummaryRow × List AlertRow × List FeatureRow) :=
  match df with
  | [] => .error "IndexError: single positional indexer is out-of-bounds"
  | r :: _ =>
    .ok (r.location, build_daily_summary df loadTs,
      build_alerts df loadTs, build_features df loadTs)

/-- The `for file in daily_files` loop of `process_gold`
(gold_transform.py:129-143): each file's three gold artifacts are saved by
`save_gold` inside the loop body, so when a later iteration raises
`IndexError`, the artifacts persisted for earlier files remain.  The first
component collects the artifacts saved before the abort (all of them on a
clean run), the second the raised error, `none` when the loop completed. -/
def goldLoop (loadTs : Nat) :
    List (List DailyRow) →
      List (String × List SummaryRow × List AlertRow × List FeatureRow) ×
        Option String
  | [] => ([], none)
  | df :: rest =>
    match goldFile loadTs df with
    | .error e => ([], some e)
    | .ok out => (out :: (goldLoop loadTs rest).1, (goldLoop loadTs rest).2)

/-- `process_gold` (gold_transform.py:121): skip (with a log line) when no
daily files exist, else run the loop; the result is the list of persisted
per-file artifact triples plus the error that aborted the loop, if any. -/
def process_gold (files : List (List DailyRow)) (loadTs : Nat) :
    List (String × List SummaryRow × List AlertRow × List FeatureRow) ×
      Option String :=
  if files.isEmpty then ([], none)
  else goldLoop loadTs files

/-- On a non-null mean the label is the two-threshold classification. -/
lemma weatherLabel_some (x : Rat) :
    weatherLabel (some x) =
      if x > 35 then "hot" else if x < 10 then "cold" else "moderate" := by
  unfold weatherLabel gtNull
  by_cases h1 : (35 : Rat) < x <;> by_cases h2 : x < 10 <;>
    simp [h1, h2, gt_iff_lt]

/-- The two-row example daily table of the spec's summary scenario:
one (date, location) group with `temp_max` 40 and 20. -/
def exampleSummaryDf : List DailyRow :=
  [{ time := some 1, location := "l", temp_max := some 40, temp_min := some 5,
     wind_speed_max := some 3, precip_total := some 2, extra := [] },
   { time := some 1, location := "l", temp_max := some 20, temp_min := some 4,
     wind_speed_max := some 6, precip_total := some 1, extra := [] }]

/-- C4: `build_daily_summary` emits exactly one row per distinct
(`time`, `location`) key of the input, and each output row's aggregates are
the group's mean/max of `temp_max`, min of `temp_min`, sum of
`precip_total`, max of `wind_speed_max`, with `weather_label` derived from
`avg_temp` by the fixed 35/10 thresholds. -/
theorem c4_daily_summary (df : List DailyRow) (loadTs : Nat) :
    ((build_daily_summary df loadTs).map (fun s => (s.time, s.location)) =
      groupKeys df) ∧
    (∀ t loc, (t, loc) ∈ groupKeys df ↔
      ∃ r ∈ df, r.time = some t ∧ r.location = loc) ∧
    (groupKeys df).Nodup ∧
    (∀ s ∈ build_daily_summary df loadTs,
      s.avg_temp =
        meanOpt ((groupRows df s.time s.location).filterMap (·.temp_max)) ∧
      s.max_temp =
        maxOpt ((groupRows df s.time s.location).filterMap (·.temp_max)) ∧
      s.min_temp =
        minOpt ((groupRows df s.time s.location).filterMap (·.temp_min)) ∧
      s.total_precip =
        ((groupRows df s.time s.location).filterMap (·.precip_total)).sum ∧
      s.max_wind_speed =
        maxOpt ((groupRows df s.time s.location).filterMap (·.wind_speed_max)) ∧
      s.load_timestamp = loadTs ∧
      s.weather_label = weatherLabel s.avg_temp ∧
      (∀ x, s.avg_temp = some x → s.weather_label =
        if x > 35 then "hot" else if x < 10 then "cold" else "moderate")) := by
  refine ⟨?_, ?_, List.nodup_dedup _, ?_⟩
  · simp [build_daily_summary, List.map_map, Function.comp_def]
  · intro t loc
    simp only [groupKeys, List.mem_dedup, List.mem_filterMap]
    constructor
    · rintro ⟨r, hr, hmap⟩
      rcases Option.map_eq_some'.mp hmap with ⟨a, ha, heq⟩
      refine ⟨r, hr, ?_, ?_⟩
      · rw [ha]
        exact congrArg some (congrArg Prod.fst heq)
      · exact congrArg Prod.snd heq
    · rintro ⟨r, hr, ht, hl⟩
      exact ⟨r, hr, by rw [ht, hl, Option.map_some']⟩
  · intro s hs
    obtain ⟨k, _, hk⟩ := List.mem_map.mp hs
    subst hk
    refine ⟨rfl, rfl, rfl, rfl, rfl, rfl, rfl, ?_⟩
    intro x hx
    show weatherLabel (meanOpt ((groupRows df k.1 k.2).filterMap
      (·.temp_max))) = _
    have hx' : meanOpt ((groupRows df k.1 k.2).filterMap (·.temp_max)) =
        some x := hx
    rw [hx']
    exact weatherLabel_some x

/-- C4 witness: on the spec's two-row example (`temp_max` 40 and 20 in one
group), the summary holds a single row with `avg_temp = 30` and
`weather_label = "moderate"`. -/
theorem c4_daily_summary_witness :
    ∃ s ∈ build_daily_summary exampleSummaryDf 7,
      s.avg_temp = some 30 ∧ s.weather_label = "moderate" ∧
      s.max_temp = some 40 := by
  have h := c4_daily_summary exampleSummaryDf 7
  refine ⟨(build_daily_summary exampleSummaryDf 7).head (by decide), ?_, ?_⟩
  · exact List.head_mem _
  · have hmem := List.head_mem
      (l := build_daily_summary exampleSummaryDf 7) (by decide)
    have hs := h.2.2.2 _ hmem
    have havg : ((build_daily_summary exampleSummaryDf 7).head
        (by decide)).avg_temp = some 30 := by
      rw [hs.1]
      show meanOpt ((groupRows exampleSummaryDf 1 "l").filterMap
        (·.temp_max)) = some 30
      show meanOpt [40, 20] = some 30
      unfold meanOpt
      norm_num [List.sum_cons]
    have hmax : ((build_daily_summary exampleSummaryDf 7).head
        (by decide)).max_temp = some 40 := by
      rw [hs.2.1]
      show maxOpt [40, 20] = some 40
      unfold maxOpt
      norm_num [List.foldl]
    refine ⟨havg, ?_, hmax⟩
    rw [hs.2.2.2.2.2.2.2 30 havg]
    norm_num

/-- A nullable threshold comparison holds iff the value is non-null and
exceeds the threshold. -/
lemma gtNull_iff (v : Option Rat) (c : Rat) :
    gtNull v c = true ↔ ∃ x, v = some x ∧ c < x := by
  cases v with
  | none => simp [gtNull]
  | some x => simp [gtNull]

/-- A 0/1 flag built by `.astype(int)` equals 1 iff its condition holds. -/
lemma flag_one_iff (b : Bool) : (if b then (1 : Nat) else 0) = 1 ↔ b = true := by
  cases b <;> simp

/-- The spec's alerts example row: `wind_speed_max=60`, `precip_total=5`,
`temp_max=10`. -/
def exampleAlertRow : DailyRow :=
  { time := some 1, location := "l", temp_max := some 10, temp_min := some 0,
    wind_speed_max := some 60, precip_total := some 5, extra := [] }

/-- C5: `build_alerts` is row-aligned with its input; per row the three flags
are set iff the corresponding metric exceeds its threshold (35/50/20), and
`risk_level` is "high" iff the storm flag is set, else "moderate" iff the
rain flag is set, else "low" — `temp_max` (the heat input) never influences
`risk_level`. -/
theorem c5_alerts (df : List DailyRow) (loadTs : Nat) :
    (build_alerts df loadTs = df.map (alertRowOf loadTs)) ∧
    (∀ i : Nat, (build_alerts df loadTs).get? i =
      (df.get? i).map (alertRowOf loadTs)) ∧
    (∀ r : DailyRow,
      ((alertRowOf loadTs r).heat_alert_flag = 1 ↔
        ∃ x, r.temp_max = some x ∧ x > 35) ∧
      ((alertRowOf loadTs r).storm_flag = 1 ↔
        ∃ x, r.wind_speed_max = some x ∧ x > 50) ∧
      ((alertRowOf loadTs r).rain_alert_flag = 1 ↔
        ∃ x, r.precip_total = some x ∧ x > 20) ∧
      ((alertRowOf loadTs r).heat_alert_flag = 0 ∨
        (alertRowOf loadTs r).heat_alert_flag = 1) ∧
      ((alertRowOf loadTs r).risk_level =
        if (alertRowOf loadTs r).storm_flag = 1 then "high"
        else if (alertRowOf loadTs r).rain_alert_flag = 1 then "moderate"
        else "low") ∧
      (∀ v, (alertRowOf loadTs { r with temp_max := v }).risk_level =
        (alertRowOf loadTs r).risk_level)) := by
  refine ⟨rfl, ?_, ?_⟩
  · intro i
    simp [build_alerts, List.get?_map]
  · intro r
    refine ⟨?_, ?_, ?_, ?_, ?_, ?_⟩
    · show (if gtNull r.temp_max 35 then (1 : Nat) else 0) = 1 ↔ _
      exact (flag_one_iff _).trans (gtNull_iff _ _)
    · show (if gtNull r.wind_speed_max 50 then (1 : Nat) else 0) = 1 ↔ _
      exact (flag_one_iff _).trans (gtNull_iff _ _)
    · show (if gtNull r.precip_total 20 then (1 : Nat) else 0) = 1 ↔ _
      exact (flag_one_iff _).trans (gtNull_iff _ _)
    · unfold alertRowOf
      by_cases h : gtNull r.temp_max 35 <;> simp [h]
    · unfold alertRowOf
      by_cases h1 : gtNull r.wind_speed_max 50 <;>
        by_cases h2 : gtNull r.precip_total 20 <;> simp [h1, h2]
    · intro v
      unfold alertRowOf
      rfl

/-- C5 witness: on the spec's example row, `storm_flag = 1`,
`rain_alert_flag = 0`, `heat_alert_flag = 0`, and `risk_level = "high"`. -/
theorem c5_alerts_witness :
    (alertRowOf 3 exampleAlertRow).storm_flag = 1 ∧
    (alertRowOf 3 exampleAlertRow).rain_alert_flag = 0 ∧
    (alertRowOf 3 exampleAlertRow).heat_alert_flag = 0 ∧
    (alertRowOf 3 exampleAlertRow).risk_level = "high" ∧
    (alertRowOf 3 { exampleAlertRow with temp_max := some 100 }).risk_level =
      (alertRowOf 3 exampleAlertRow).risk_level := by
  have h := (c5_alerts [exampleAlertRow] 3).2.2 exampleAlertRow
  refine ⟨h.2.1.mpr ⟨60, rfl, by norm_num⟩, by decide, by decide, ?_,
    h.2.2.2.2.2 (some 100)⟩
  rw [h.2.2.2.2.1, if_pos (h.2.1.mpr ⟨60, rfl, by norm_num⟩)]

/-- The spec's features example row: `temp_max=30`, `temp_min=20`,
`wind_speed_max=10`. -/
def exampleFeatureRow : DailyRow :=
  { time := some 1, location := "l", temp_max := some 30, temp_min := some 20,
    wind_speed_max := some 10, precip_total := some 4, extra := [] }

/-- C6: `build_features` is row-preserving and frame-respecting — the bases
of its output rows are exactly the input rows, every input column
(including the extra ones) unchanged — and the three engineered columns
follow the fixed formulas, with a `load_timestamp` stamp. -/
theorem c6_features_frame (df : List DailyRow) (loadTs : Nat) :
    ((build_features df loadTs).map (·.base) = df) ∧
    ((build_features df loadTs).length = df.length) ∧
    (∀ i : Nat, (build_features df loadTs).get? i =
      (df.get? i).map (featureRowOf loadTs)) ∧
    (∀ r : DailyRow, (featureRowOf loadTs r).base = r ∧
      (featureRowOf loadTs r).load_timestamp = loadTs) ∧
    (∀ r : DailyRow, ∀ tmax tmin wmax ptot : Rat,
      r.temp_max = some tmax → r.temp_min = some tmin →
      r.wind_speed_max = some wmax → r.precip_total = some ptot →
      (featureRowOf loadTs r).temperature_range = some (tmax - tmin) ∧
      (featureRowOf loadTs r).humidity_index =
        some (tmax * (1/10) + ptot * (1/2)) ∧
      (featureRowOf loadTs r).wind_chill = some (tmin - wmax * (1/10))) := by
  refine ⟨?_, ?_, ?_, ?_, ?_⟩
  · simp [build_features, List.map_map, Function.comp_def, featureRowOf]
  · simp [build_features]
  · intro i
    simp [build_features, List.get?_map]
  · intro r
    exact ⟨rfl, rfl⟩
  · intro r tmax tmin wmax ptot h1 h2 h3 h4
    unfold featureRowOf map2Opt
    rw [h1, h2, h3, h4]
    exact ⟨rfl, rfl, rfl⟩

/-- C6 witness: on the spec's example row, `temperature_range = 10` and
`wind_chill = 19`, and the row itself is carried through unchanged. -/
theorem c6_features_frame_witness :
    (featureRowOf 5 exampleFeatureRow).temperature_range = some 10 ∧
    (featureRowOf 5 exampleFeatureRow).wind_chill = some 19 ∧
    (featureRowOf 5 exampleFeatureRow).base = exampleFeatureRow ∧
    (build_features [exampleFeatureRow] 5).map (·.base) =
      [exampleFeatureRow] := by
  have h := c6_features_frame [exampleFeatureRow] 5
  have hf := h.2.2.2.2 exampleFeatureRow 30 20 10 4 rfl rfl rfl rfl
  refine ⟨?_, ?_, (h.2.2.2.1 exampleFeatureRow).1, h.1⟩
  · rw [hf.1]
    norm_num
  · rw [hf.2.2]
    norm_num

/-- A batch containing a zero-row table always aborts the loop with the
raised `IndexError`. -/
lemma goldLoop_error_of_mem_nil (loadTs : Nat) :
    ∀ files : List (List DailyRow), [] ∈ files →
      ∃ msg, (goldLoop loadTs files).2 = some msg := by
  intro files h
  induction files with
  | nil => cases h
  | cons f rest ih =>
    rcases List.mem_cons.mp h with hf | hrest
    · refine ⟨"IndexError: single positional indexer is out-of-bounds", ?_⟩
      rw [← hf]
      rfl
    · obtain ⟨msg, hm⟩ := ih hrest
      cases f with
      | nil =>
        exact ⟨"IndexError: single positional indexer is out-of-bounds", rfl⟩
      | cons r tl => exact ⟨msg, hm⟩

/-- The files before the first zero-row table have their artifacts persisted
before the abort; the zero-row table and everything after it produce
nothing. -/
lemma goldLoop_prefix_persisted (loadTs : Nat) :
    ∀ pre post : List (List DailyRow), (∀ df ∈ pre, df ≠ []) →
      goldLoop loadTs (pre ++ [] :: post) =
        (pre.filterMap fun df => (goldFile loadTs df).toOption,
         some "IndexError: single positional indexer is out-of-bounds") := by
  intro pre
  induction pre with
  | nil =>
    intro post h
    rfl
  | cons f rest ih =>
    intro post h
    have hf : f ≠ [] := h f (List.Mem.head _)
    cases f with
    | nil => exact absurd rfl hf
    | cons r tl =>
      have hih := ih post fun df hdf => h df (List.Mem.tail _ hdf)
      show goldLoop loadTs ((r :: tl) :: (rest ++ [] :: post)) = _
      unfold goldLoop
      rw [List.filterMap_cons]
      simp only [goldFile, Except.toOption]
      rw [hih]
      rfl

/-- C7 counterexample: a batch holding one empty (zero-row) conformed daily
table is not skipped — `process_gold` raises the `IndexError` from
`df_daily["location"].iloc[0]` (persisting nothing for that table),
contradicting the claim that an empty table is skipped with no error
raised. -/
theorem c7_empty_table_counterexample :
    process_gold [([] : List DailyRow)] 0 =
      ([], some "IndexError: single positional indexer is out-of-bounds") := by
  rfl

/-- C7 amended: curation is skipped (no outputs, no error) only when there
are NO conformed daily artifacts at all.  A batch containing an empty
(zero-row) daily table instead raises an indexing error while extracting
the location: the artifacts already saved inside the loop for the files
before it remain persisted, the empty table and every later file produce
none, and a run that finishes without error processed only non-empty
tables. -/
theorem c7_gold_skip_amended (loadTs : Nat) :
    (process_gold [] loadTs = ([], none)) ∧
    (∀ files : List (List DailyRow), [] ∈ files →
      ∃ msg, (process_gold files loadTs).2 = some msg) ∧
    (∀ pre post : List (List DailyRow), (∀ df ∈ pre, df ≠ []) →
      process_gold (pre ++ [] :: post) loadTs =
        (pre.filterMap fun df => (goldFile loadTs df).toOption,
         some "IndexError: single positional indexer is out-of-bounds")) ∧
    (∀ files : List (List DailyRow), (process_gold files loadTs).2 = none →
      ∀ df ∈ files, df ≠ []) := by
  refine ⟨rfl, ?_, ?_, ?_⟩
  · intro files h
    have hne : files.isEmpty = false := by
      cases hf : files.isEmpty
      · rfl
      · rw [List.isEmpty_iff] at hf
        simp [hf] at h
    obtain ⟨msg, hm⟩ := goldLoop_error_of_mem_nil loadTs files h
    refine ⟨msg, ?_⟩
    unfold process_gold
    simp only [hne, Bool.false_eq_true, if_false]
    exact hm
  · intro pre post h
    have hne : (pre ++ [] :: post).isEmpty = false := by
      cases hf : (pre ++ [] :: post).isEmpty
      · rfl
      · rw [List.isEmpty_iff] at hf
        rcases List.append_eq_nil.mp hf with ⟨-, h2⟩
        exact List.noConfusion h2
    unfold process_gold
    simp only [hne, Bool.false_eq_true, if_false]
    exact goldLoop_prefix_persisted loadTs pre post h
  · intro files hok df hdf hnil
    subst hnil
    have hne : files.isEmpty = false := by
      cases hf : files.isEmpty
      · rfl
      · rw [List.isEmpty_iff] at hf
        simp [hf] at hdf
    obtain ⟨msg, hm⟩ := goldLoop_error_of_mem_nil loadTs files hdf
    unfold process_gold at hok
    simp only [hne, Bool.false_eq_true, if_false] at hok
    rw [hm] at hok
    exact Option.noConfusion hok

/-- C7 witness: the empty batch is a clean skip; a batch whose second table
is empty keeps the first file's persisted artifacts and aborts with the
indexing error. -/
theorem c7_gold_skip_amended_witness :
    process_gold ([] : List (List DailyRow)) 4 = ([], none) ∧
    process_gold [[exampleFeatureRow], ([] : List DailyRow)] 4 =
      ([("l", build_daily_summary [exampleFeatureRow] 4,
          build_alerts [exampleFeatureRow] 4,
          build_features [exampleFeatureRow] 4)],
       some "IndexError: single positional indexer is out-of-bounds") ∧
    (∃ msg, (process_gold [[exampleFeatureRow], ([] : List DailyRow)] 4).2 =
      some msg) := by
  have h := c7_gold_skip_amended 4
  refine ⟨h.1, ?_, h.2.1 _ (List.Mem.tail _ (List.Mem.head _))⟩
  have hp := h.2.2.1 [[exampleFeatureRow]] []
    (by
      intro df hdf
      rw [List.mem_singleton] at hdf
      subst hdf
      exact List.cons_ne_nil _ _)
  exact hp

/-- The all-null-metrics daily row used to exercise the null threshold
behaviour. -/
def nullMetricsRow : DailyRow :=
  { time := some 2, location := "l", temp_max := none, temp_min := none,
    wind_speed_max := none, precip_total := none, extra := [] }

/-- C10: null metric values never satisfy a curation threshold — a null
`wind_speed_max`, `precip_total` or `temp_max` gives a zero flag, null
storm and rain inputs give `risk_level = "low"`, and a group whose
`avg_temp` aggregates to null gets `weather_label = "moderate"`. -/
theorem c10_null_thresholds (loadTs : Nat) :
    (∀ r : DailyRow, r.wind_speed_max = none →
      (alertRowOf loadTs r).storm_flag = 0) ∧
    (∀ r : DailyRow, r.precip_total = none →
      (alertRowOf loadTs r).rain_alert_flag = 0) ∧
    (∀ r : DailyRow, r.temp_max = none →
      (alertRowOf loadTs r).heat_alert_flag = 0) ∧
    (∀ r : DailyRow, r.wind_speed_max = none → r.precip_total = none →
      (alertRowOf loadTs r).risk_level = "low") ∧
    (∀ (df : List DailyRow) s, s ∈ build_daily_summary df loadTs →
      s.avg_temp = none → s.weather_label = "moderate") := by
  refine ⟨?_, ?_, ?_, ?_, ?_⟩
  · intro r h
    show (if gtNull r.wind_speed_max 50 then (1 : Nat) else 0) = 0
    rw [h]
    rfl
  · intro r h
    show (if gtNull r.precip_total 20 then (1 : Nat) else 0) = 0
    rw [h]
    rfl
  · intro r h
    show (if gtNull r.temp_max 35 then (1 : Nat) else 0) = 0
    rw [h]
    rfl
  · intro r h1 h2
    show (if (if gtNull r.wind_speed_max 50 then (1 : Nat) else 0) = 1
      then "high"
      else if (if gtNull r.precip_total 20 then (1 : Nat) else 0) = 1
      then "moderate" else "low") = "low"
    rw [h1, h2]
    rfl
  · intro df s hs havg
    obtain ⟨k, _, hk⟩ := List.mem_map.mp hs
    subst hk
    have hm : meanOpt ((groupRows df k.1 k.2).filterMap (·.temp_max)) =
        none := havg
    show weatherLabel (meanOpt ((groupRows df k.1 k.2).filterMap
      (·.temp_max))) = "moderate"
    rw [hm]
    rfl

/-- C10 witness: on the all-null row, every flag is 0, the risk level is
"low", and the resulting one-group summary has a null mean labelled
"moderate". -/
theorem c10_null_thresholds_witness :
    (alertRowOf 9 nullMetricsRow).storm_flag = 0 ∧
    (alertRowOf 9 nullMetricsRow).rain_alert_flag = 0 ∧
    (alertRowOf 9 nullMetricsRow).heat_alert_flag = 0 ∧
    (alertRowOf 9 nullMetricsRow).risk_level = "low" ∧
    ∃ s ∈ build_daily_summary [nullMetricsRow] 9,
      s.avg_temp = none ∧ s.weather_label = "moderate" := by
  have h := c10_null_thresholds 9
  refine ⟨h.1 _ rfl, h.2.1 _ rfl, h.2.2.1 _ rfl, h.2.2.2.1 _ rfl rfl, ?_⟩
  refine ⟨(build_daily_summary [nullMetricsRow] 9).head (by decide),
    List.head_mem _, rfl, ?_⟩
  exact h.2.2.2.2 [nullMetricsRow] _ (List.head_mem _) rfl

/-! ## Fetch client retry policy (`scripts/test_api_call.py`, urllib3 Retry)

The session mounts `HTTPAdapter(max_retries=Retry(total=5,
backoff_factor=0.3, status_forcelist=[429, 500, 502, 503, 504]))`.  The
retry loop itself lives in urllib3; it is embedded here following urllib3's
documented semantics for that configuration: `total` counts *retries* (the
initial request is free), a response whose status is in the forcelist
consumes a retry after the backoff sleep, and exhausting retries on a
forcelist status raises `MaxRetryError` (surfaced by requests as a
`RetryError`, which `fetch_raw_weather` does not catch). -/

/-- The `status_forcelist` of the configured `Retry` (test_api_call.py:54). -/
def status_forcelist : List Nat := [429, 500, 502, 503, 504]

/-- `total=5` (test_api_call.py:52, commented "max retries"): the number of
retries allowed after the initial request. -/
def retry_total : Nat := 5

/-- urllib3 `Retry.get_backoff_time` with `backoff_factor=0.3`: the sleep
before the n-th consecutive retried error — the first retry is immediate,
later ones wait `0.3 * 2^(n-1)` seconds. -/
def backoff_time (consecutiveErrors : Nat) : Rat :=
  if consecutiveErrors ≤ 1 then 0
  else (3 / 10) * 2 ^ (consecutiveErrors - 1)

/-- What the adapter hands back to the caller: a response, or the raised
retry-exhaustion error (which carries neither location nor status code). -/
inductive FetchOutcome where
  | response (status : Nat)
  | retryError
deriving DecidableEq

/-- The adapter's retry loop on a server that answers request `i` (0-based)
with status `server i`; the second component counts HTTP requests sent. -/
def retryLoop (server : Nat → Nat) (retriesLeft : Nat) (attempt : Nat) :
    FetchOutcome × Nat :=
  let s := server attempt
  if s ∈ status_forcelist then
    match retriesLeft with
    | 0 => (.retryError, attempt + 1)
    | n + 1 => retryLoop server n (attempt + 1)
  else (.response s, attempt + 1)

/-- `session.get` through the mounted adapter. -/
def session_get (server : Nat → Nat) : FetchOutcome × Nat :=
  retryLoop server retry_total 0

/-- The observable result of `fetch_raw_weather`. -/
inductive FetchResult where
  | ok
  | apiError (loc : String) (status : Nat)
  | retryExhausted
deriving DecidableEq

/-- `fetch_raw_weather` (test_api_call.py:85): a `RetryError` from the
adapter propagates untouched; a non-200 response raises
`RuntimeError(f"API Error for ... — Status ...")` carrying the location
name and the status code; a 200 returns the parsed body. -/
def fetch_raw_weather (locName : String) (server : Nat → Nat) :
    FetchResult × Nat :=
  match session_get server with
  | (.retryError, n) => (.retryExhausted, n)
  | (.response s, n) =>
    if s = 200 then (.ok, n) else (.apiError locName s, n)

/-- The loop sends at least one request from each attempt index. -/
lemma retryLoop_count_ge (server : Nat → Nat) :
    ∀ retriesLeft attempt,
      attempt + 1 ≤ (retryLoop server retriesLeft attempt).2 := by
  intro retriesLeft
  induction retriesLeft with
  | zero =>
    intro attempt
    unfold retryLoop
    by_cases h : server attempt ∈ status_forcelist <;> simp [h]
  | succ n ih =>
    intro attempt
    unfold retryLoop
    by_cases h : server attempt ∈ status_forcelist
    · simp only [h, if_true]
      exact le_trans (by omega) (ih (attempt + 1))
    · simp [h]

/-- The loop sends at most one request per remaining retry plus one. -/
lemma retryLoop_count_le (server : Nat → Nat) :
    ∀ retriesLeft attempt,
      (retryLoop server retriesLeft attempt).2 ≤ attempt + retriesLeft + 1 := by
  intro retriesLeft
  induction retriesLeft with
  | zero =>
    intro attempt
    unfold retryLoop
    by_cases h : server attempt ∈ status_forcelist <;> simp [h]
  | succ n ih =>
    intro attempt
    unfold retryLoop
    by_cases h : server attempt ∈ status_forcelist
    · simp only [h, if_true]
      exact le_trans (ih (attempt + 1)) (by omega)
    · simp [h]

/-- On a server that always answers with a transient status, the loop spends
every retry and raises. -/
lemma retryLoop_all_transient (server : Nat → Nat)
    (h : ∀ i, server i ∈ status_forcelist) :
    ∀ retriesLeft attempt, retryLoop server retriesLeft attempt =
      (.retryError, attempt + retriesLeft + 1) := by
  intro retriesLeft
  induction retriesLeft with
  | zero =>
    intro attempt
    unfold retryLoop
    simp [h attempt]
  | succ n ih =>
    intro attempt
    unfold retryLoop
    simp only [h attempt, if_true]
    rw [ih (attempt + 1)]
    refine congrArg _ ?_
    omega

/-- C9 counterexample: against a server that always answers 503, the client
sends 6 HTTP requests — not at most 5 — and the resulting failure is the
adapter's retry-exhaustion error, which carries neither the location name
nor a status code. -/
theorem c9_attempt_ceiling_counterexample :
    (fetch_raw_weather "Mumbai" (fun _ => 503)).2 = 6 ∧
    ¬ (fetch_raw_weather "Mumbai" (fun _ => 503)).2 ≤ 5 ∧
    (fetch_raw_weather "Mumbai" (fun _ => 503)).1 =
      FetchResult.retryExhausted := by
  refine ⟨by decide, by decide, by decide⟩

/-- C9 amended: the client retries exactly the transient statuses 429, 500,
502, 503, 504 with exponential (doubling) backoff; it makes at most 6 total
HTTP attempts (1 initial + up to 5 retries, `Retry(total=5)` counting
retries); a persistently transient server consumes all 6 attempts and the
failure surfaces as the adapter's retry error without location or status;
a non-success status returned to the client fails with the
`RuntimeError` carrying the location name and the status code. -/
theorem c9_retry_policy_amended (server : Nat → Nat) (locName : String) :
    (status_forcelist = [429, 500, 502, 503, 504]) ∧
    (∀ s, server 0 = s → s ∉ status_forcelist →
      session_get server = (.response s, 1)) ∧
    (server 0 ∈ status_forcelist → 2 ≤ (session_get server).2) ∧
    ((session_get server).2 ≤ retry_total + 1) ∧
    ((∀ i, server i ∈ status_forcelist) →
      session_get server = (.retryError, retry_total + 1)) ∧
    (∀ s n, session_get server = (.response s, n) → s ≠ 200 →
      fetch_raw_weather locName server = (.apiError locName s, n)) ∧
    (∀ n, session_get server = (.retryError, n) →
      fetch_raw_weather locName server = (.retryExhausted, n)) ∧
    (∀ n, 2 ≤ n → backoff_time (n + 1) = 2 * backoff_time n) := by
  refine ⟨rfl, ?_, ?_, ?_, ?_, ?_, ?_, ?_⟩
  · intro s hs hmem
    unfold session_get retry_total retryLoop
    rw [hs]
    simp [hmem]
  · intro hmem
    unfold session_get retry_total retryLoop
    simp only [hmem, if_true]
    exact le_trans (by omega) (retryLoop_count_ge server 4 1)
  · exact retryLoop_count_le server retry_total 0
  · intro h
    rw [show session_get server = retryLoop server retry_total 0 from rfl,
      retryLoop_all_transient server h retry_total 0]
    simp
  · intro s n hsg hs
    unfold fetch_raw_weather
    rw [hsg]
    simp [hs]
  · intro n hsg
    unfold fetch_raw_weather
    rw [hsg]
  · intro n hn
    obtain ⟨m, rfl⟩ : ∃ m, n = m + 2 := ⟨n - 2, by omega⟩
    unfold backoff_time
    rw [if_neg (by omega), if_neg (by omega)]
    have h1 : m + 2 + 1 - 1 = (m + 1) + 1 := by omega
    have h2 : m + 2 - 1 = m + 1 := by omega
    rw [h1, h2, pow_succ]
    ring

/-- C9 witness: a 404 is returned without retrying (1 attempt) and becomes
the location-carrying `RuntimeError`; an always-503 server exhausts the
retries after 6 attempts; the backoff doubles from the second retry on. -/
theorem c9_retry_policy_amended_witness :
    session_get (fun _ => 404) = (.response 404, 1) ∧
    session_get (fun _ => 503) = (.retryError, 6) ∧
    fetch_raw_weather "Mumbai" (fun _ => 404) =
      (.apiError "Mumbai" 404, 1) ∧
    backoff_time 3 = 2 * backoff_time 2 := by
  have h503 := c9_retry_policy_amended (fun _ => 503) "Mumbai"
  have h404 := c9_retry_policy_amended (fun _ => 404) "Mumbai"
  refine ⟨h404.2.1 404 rfl (by decide), ?_, ?_,
    h404.2.2.2.2.2.2.2 2 (by norm_num)⟩
  · exact h503.2.2.2.2.1 fun i => by decide
  · exact h404.2.2.2.2.2.1 404 1 (h404.2.1 404 rfl (by decide)) (by decide)
